import Mathlib

/-!
Verification of the core of a multi-backend federated-social-network client
library (megalodon-rs subset) against its natural-language specification.

The embedding translates the Rust sources:
  - src/generic/api_client.rs : APIClient (new, request, verb methods)
  - src/megalodon.rs          : detector, SNS, generator
External collaborators (the reqwest transport, the url parser) are passed
in as oracle functions; parts of the crate that are referenced but whose
source is not available (error.rs, response.rs, default.rs, the mastodon
backend module) are modelled from the specification, each marked so in its
doc comment.
-/

/-- Header maps are modelled as association lists of name/value pairs. -/
abbrev Headers := List (String × String)

/-- Model of serde_json::Value: the claims never inspect the JSON structure,
so a value is kept as its serialized text. -/
structure Value where
  raw : String
deriving Repr, DecidableEq

/-- Model of reqwest::multipart::Form as a list of named parts. -/
structure MultipartForm where
  parts : List (String × String)
deriving Repr, DecidableEq

/-- The HTTP methods used by APIClient (reqwest::Method). -/
inductive Method where
  | GET
  | POST
  | PUT
  | PATCH
  | DELETE
deriving Repr, DecidableEq

/-- Translation of the private Params enum of src/generic/api_client.rs:
a request body is either a multipart form or a JSON key-value mapping. -/
inductive Params where
  | Form (form : MultipartForm)
  | Json (json : List (String × Value))
deriving Repr, DecidableEq

/-- True when the Params value is the JSON variant. -/
def Params.isJson : Params → Bool
  | .Json _ => true
  | .Form _ => false

/-- True when the Params value is the multipart-form variant. -/
def Params.isForm : Params → Bool
  | .Json _ => false
  | .Form _ => true

/-- Modelled from the spec: error.rs is not under src/. Section 7 gives the
closed error taxonomy: URL-construction error, transport/connection error,
HTTP status error, partial-content error, payload-deserialization error,
client-construction error. The two kinds named in api_client.rs keep their
source names. -/
inductive Kind where
  | InvalidURL
  | ConnectionError
  | HTTPStatusError
  | HTTPPartialContentError
  | DeserializeError
  | ClientConstructionError
deriving Repr, DecidableEq

/-- Modelled from the spec: error.rs is not under src/. Section 3 gives the
Error data model: kind, message, optional url, optional status, optional
headers. -/
structure Error where
  kind : Kind
  message : String
  url : Option String
  status : Option Nat
  headers : Option Headers
deriving Repr, DecidableEq

/-- Modelled from the spec: Error::new_own as used by api_client.rs builds an
Error from message, kind, url, status and headers, in that argument order. -/
def Error.new_own (message : String) (kind : Kind) (url : Option String)
    (status : Option Nat) (headers : Option Headers) : Error :=
  { kind := kind, message := message, url := url, status := status,
    headers := headers }

/-- The classes of reqwest::Error relevant to this crate: connection-level
failures, body-decode failures, and client-builder failures. -/
inductive ReqErrKind where
  | connect
  | decode
  | builder
deriving Repr, DecidableEq

/-- Model of reqwest::Error: a diagnostic message plus its class. -/
structure ReqErr where
  message : String
  rkind : ReqErrKind
deriving Repr, DecidableEq

/-- Modelled from the spec: the From impl of reqwest::Error for Error lives
in the missing error.rs. Section 7 maps a network-level failure to the
connection-error kind, a payload-decode failure to the deserialization
kind, and a transport-construction failure to the construction kind. -/
def Error.fromReqwest (e : ReqErr) : Error :=
  { kind :=
      match e.rkind with
      | .connect => Kind.ConnectionError
      | .decode => Kind.DeserializeError
      | .builder => Kind.ClientConstructionError,
    message := e.message, url := none, status := none, headers := none }

/-- Modelled from the spec: the From impl of url::ParseError for Error lives
in the missing error.rs. Section 4.1 step 1: fail with InvalidURL if
parsing fails. -/
def Error.fromParseError : Error :=
  { kind := Kind.InvalidURL, message := "error parsing url", url := none,
    status := none, headers := none }

/-- Modelled from the spec: default.rs is not under src/. The fixed default
user-agent constant (section 6). -/
def DEFAULT_UA : String := "megalodon"

/-- Modelled from the spec: rate-limit metadata derived from standard
response headers (sections 3 and 4.2, glossary). -/
structure RateLimit where
  limit : Nat
  remaining : Nat
  reset : Nat
deriving Repr, DecidableEq

/-- Look up a header value by exact name in a header list. -/
def headerLookup (name : String) (hs : Headers) : Option String :=
  match hs with
  | [] => none
  | (k, v) :: rest => if k = name then some v else headerLookup name rest

/-- Modelled from the spec: derive rate-limit fields by parsing the standard
rate-limit response headers; absent or unparsable headers give none. -/
def RateLimit.fromHeaders (hs : Headers) : Option RateLimit :=
  match headerLookup "x-ratelimit-limit" hs, headerLookup "x-ratelimit-remaining" hs,
      headerLookup "x-ratelimit-reset" hs with
  | some l, some r, some s =>
    match l.toNat?, r.toNat?, s.toNat? with
    | some ln, some rn, some sn =>
      some { limit := ln, remaining := rn, reset := sn }
    | _, _, _ => none
  | _, _, _ => none

/-- Modelled from the spec: response.rs is not under src/. Section 3 gives
the Response Envelope: decoded payload, response headers, derived
rate-limit metadata. -/
structure Response (T : Type) where
  json : T
  headers : Headers
  rateLimit : Option RateLimit
deriving Repr, DecidableEq

/-- A raw transport response as the client observes it: numeric status,
headers, the result of JSON-decoding the body as T (none when decoding
fails), and the result of reading the body as text (none when that
fails). -/
structure HttpResponse (T : Type) where
  status : Nat
  headers : Headers
  jsonBody : Option T
  textBody : Option String
deriving Repr, DecidableEq

/-- Outcome of one HTTP round trip: a network-level failure or a response. -/
inductive TransportResult (T : Type) where
  | failure (e : ReqErr)
  | response (r : HttpResponse T)
deriving Repr, DecidableEq

/-- Modelled from the spec: Response::<T>::from_reqwest (response.rs, not
under src/). Section 4.2: given a transport response already known to be a
success, extract headers, derive rate-limit metadata and decode the body;
decoding failure is the only error this stage can produce. -/
def Response.from_reqwest {T : Type} (res : HttpResponse T) :
    Except Error (Response T) :=
  match res.jsonBody with
  | some payload =>
    Except.ok { json := payload, headers := res.headers,
                rateLimit := RateLimit.fromHeaders res.headers }
  | none =>
    Except.error { kind := Kind.DeserializeError,
                   message := "error decoding response body",
                   url := none, status := none, headers := none }

/-- Model of the built reqwest client: after construction the only state the
claims observe is the configured user agent. -/
structure ReqwestClient where
  user_agent : String
deriving Repr, DecidableEq

/-- Translation of the APIClient struct of src/generic/api_client.rs. -/
structure APIClient where
  access_token : Option String
  base_url : String
  client : ReqwestClient
deriving Repr, DecidableEq

/-- Translation of APIClient::new. The reqwest client builder is an external
collaborator, passed as the oracle buildErr: applied to the chosen user
agent it returns some error when the transport cannot be built and none on
success (a successful build configures exactly that user agent). -/
def APIClient.new (buildErr : String → Option ReqErr) (base_url : String)
    (access_token : Option String) (user_agent : Option String) :
    Except Error APIClient :=
  let ua : String :=
    match user_agent with
    | some agent => agent
    | none => DEFAULT_UA
  match buildErr ua with
  | some e => Except.error (Error.fromReqwest e)
  | none =>
    Except.ok { access_token := access_token, base_url := base_url,
                client := { user_agent := ua } }

/-- The outbound request APIClient::request hands to the transport: target
URL, method, the Authorization header value set by bearer_auth (when a
token is configured), the caller-supplied headers, and the body. -/
structure OutboundRequest where
  url : String
  method : Method
  authorization : Option String
  headers : Option Headers
  body : Option Params
deriving Repr, DecidableEq

/-- Translation of lines 55-61 of src/generic/api_client.rs: build the
outbound request, attaching the bearer-auth header exactly when an access
token is configured and merging caller-supplied headers. -/
def APIClient.buildReq (c : APIClient) (url_str : String) (method : Method)
    (headers : Option Headers) (params : Option Params) : OutboundRequest :=
  { url := url_str, method := method,
    authorization := c.access_token.map (fun tok => "Bearer " ++ tok),
    headers := headers, body := params }

/-- Translation of lines 71-105 of src/generic/api_client.rs: classify the
received response by HTTP status. -/
def classifyStatus {T : Type} (url_str : String) (res : HttpResponse T) :
    Except Error (Response T) :=
  if res.status = 200 ∨ res.status = 201 ∨ res.status = 202 ∨ res.status = 204 then
    Response.from_reqwest res
  else if res.status = 206 then
    Except.error (Error.new_own "The requested resource is still being processed"
      Kind.HTTPPartialContentError (some url_str) (some res.status)
      (some res.headers))
  else
    match res.textBody with
    | some text =>
      Except.error (Error.new_own text Kind.HTTPStatusError (some url_str)
        (some res.status) (some res.headers))
    | none =>
      Except.error (Error.new_own "Unknown error" Kind.HTTPStatusError
        (some url_str) (some res.status) (some res.headers))

/-- Translation of APIClient::request. The url crate and the transport are
external collaborators, passed as oracles: parseOk tells whether a string
parses as an absolute URL, transport performs the one round trip. -/
def APIClient.request {T : Type} (c : APIClient) (parseOk : String → Bool)
    (transport : OutboundRequest → TransportResult T) (path : String)
    (headers : Option Headers) (method : Method) (params : Option Params) :
    Except Error (Response T) :=
  let url_str := c.base_url ++ path
  if parseOk url_str then
    match transport (c.buildReq url_str method headers params) with
    | .failure e => Except.error (Error.fromReqwest e)
    | .response res => classifyStatus url_str res
  else
    Except.error Error.fromParseError

/-- Translation of APIClient::get. -/
def APIClient.get {T : Type} (c : APIClient) (parseOk : String → Bool)
    (transport : OutboundRequest → TransportResult T) (path : String)
    (headers : Option Headers) : Except Error (Response T) :=
  c.request parseOk transport path headers Method.GET none

/-- Translation of APIClient::post. -/
def APIClient.post {T : Type} (c : APIClient) (parseOk : String → Bool)
    (transport : OutboundRequest → TransportResult T) (path : String)
    (params : List (String × Value)) (headers : Option Headers) :
    Except Error (Response T) :=
  c.request parseOk transport path headers Method.POST (some (Params.Json params))

/-- Translation of APIClient::post_multipart. -/
def APIClient.post_multipart {T : Type} (c : APIClient) (parseOk : String → Bool)
    (transport : OutboundRequest → TransportResult T) (path : String)
    (params : MultipartForm) (headers : Option Headers) :
    Except Error (Response T) :=
  c.request parseOk transport path headers Method.POST (some (Params.Form params))

/-- Translation of APIClient::put. -/
def APIClient.put {T : Type} (c : APIClient) (parseOk : String → Bool)
    (transport : OutboundRequest → TransportResult T) (path : String)
    (params : List (String × Value)) (headers : Option Headers) :
    Except Error (Response T) :=
  c.request parseOk transport path headers Method.PUT (some (Params.Json params))

/-- Translation of APIClient::put_multipart. -/
def APIClient.put_multipart {T : Type} (c : APIClient) (parseOk : String → Bool)
    (transport : OutboundRequest → TransportResult T) (path : String)
    (params : MultipartForm) (headers : Option Headers) :
    Except Error (Response T) :=
  c.request parseOk transport path headers Method.PUT (some (Params.Form params))

/-- Translation of APIClient::patch. -/
def APIClient.patch {T : Type} (c : APIClient) (parseOk : String → Bool)
    (transport : OutboundRequest → TransportResult T) (path : String)
    (params : List (String × Value)) (headers : Option Headers) :
    Except Error (Response T) :=
  c.request parseOk transport path headers Method.PATCH (some (Params.Json params))

/-- Translation of APIClient::delete. -/
def APIClient.delete {T : Type} (c : APIClient) (parseOk : String → Bool)
    (transport : OutboundRequest → TransportResult T) (path : String)
    (params : List (String × Value)) (headers : Option Headers) :
    Except Error (Response T) :=
  c.request parseOk transport path headers Method.DELETE (some (Params.Json params))

/-- Model of entities::URLs (entity schema module is out of scope of the
sources): only presence matters for decoding. -/
structure URLs where
  streaming_api : String
deriving Repr, DecidableEq

/-- Translation of the private Instance struct of src/megalodon.rs. -/
structure Instance where
  title : String
  uri : String
  urls : URLs
  version : String
deriving Repr, DecidableEq

/-- Whether needle is a contiguous sublist of hay; model of the byte-level
substring test of Rust str::contains (character-exact, case-sensitive). -/
def containsSub (needle : List Char) : List Char → Bool
  | [] => needle.isEmpty
  | c :: rest => needle.isPrefixOf (c :: rest) || containsSub needle rest

/-- Model of Rust String::contains on string slices. -/
def strContains (hay needle : String) : Bool :=
  containsSub needle.data hay.data

/-- Translation of the SNS enum of src/megalodon.rs. -/
inductive SNS where
  | Mastodon
  | Pleroma
  | Misskey
deriving Repr, DecidableEq

/-- One HTTP round trip made by the detector, recorded for counting. -/
inductive Probe where
  | get (url : String)
  | post (url : String)
deriving Repr, DecidableEq

/-- Translation of detector of src/megalodon.rs. The two transports are
oracles: serverGet models reqwest::get followed by res.json (outer error
is the transport failure of the GET, inner error the body-decode failure);
serverPost models the POST send (any response at all is Ok). Alongside the
result, the list of round trips actually made is returned. -/
def detector (url : String)
    (serverGet : String → Except ReqErr (Except ReqErr Instance))
    (serverPost : String → Except ReqErr Unit) :
    Except Error SNS × List Probe :=
  let getUrl := url ++ "/api/v1/instance"
  match serverGet getUrl with
  | .ok obj =>
    (match obj with
     | .ok json =>
       if strContains json.version "Pleroma" = true then
         (Except.ok SNS.Pleroma, [Probe.get getUrl])
       else
         (Except.ok SNS.Mastodon, [Probe.get getUrl])
     | .error err => (Except.error (Error.fromReqwest err), [Probe.get getUrl]))
  | .error _ =>
    let postUrl := url ++ "/api/meta"
    match serverPost postUrl with
    | .ok _ =>
      (Except.ok SNS.Misskey, [Probe.get getUrl, Probe.post postUrl])
    | .error err =>
      (Except.error (Error.fromReqwest err), [Probe.get getUrl, Probe.post postUrl])

/-- Modelled from the spec: the mastodon backend module is not under src/.
Section 4.4: each dialect has its own concrete backend implementation; the
one the factory currently builds is the Mastodon one, constructed from the
connection parameters. The inductive enumerates the concrete implementing
types the type-erased Box can hold. -/
inductive MegalodonImpl where
  | mastodon (base_url : String) (access_token : Option String)
      (user_agent : Option String)
deriving Repr, DecidableEq

/-- Translation of generator of src/megalodon.rs: the match on sns has a
single wildcard arm that always constructs the Mastodon backend. -/
def generator (sns : SNS) (base_url : String) (access_token : Option String)
    (user_agent : Option String) : MegalodonImpl :=
  match sns with
  | _ => MegalodonImpl.mastodon base_url access_token user_agent

/-! Concrete fixtures used by the witness theorems. -/

/-- A URL oracle accepting every string. -/
def allParse : String → Bool := fun _ => true

/-- A concrete client with a configured access token. -/
def sampleClient : APIClient :=
  { access_token := some "tok123", base_url := "https://example.test",
    client := { user_agent := "test-agent" } }

/-- A concrete client without an access token. -/
def sampleClientAnon : APIClient :=
  { access_token := none, base_url := "https://example.test",
    client := { user_agent := "test-agent" } }

/-- A concrete 200 response decoding to the number 7. -/
def okResponse : HttpResponse Nat :=
  { status := 200, headers := [("server", "x")], jsonBody := some 7,
    textBody := some "7" }

/-- A transport always answering with okResponse. -/
def okTransport : OutboundRequest → TransportResult Nat :=
  fun _ => TransportResult.response okResponse

/-- A concrete 206 response. -/
def partialResponse : HttpResponse Nat :=
  { status := 206, headers := [("server", "x")], jsonBody := some 7,
    textBody := some "processing" }

/-- A transport always answering with partialResponse. -/
def partialTransport : OutboundRequest → TransportResult Nat :=
  fun _ => TransportResult.response partialResponse

/-- A concrete 404 response whose body reads as text. -/
def notFoundResponse : HttpResponse Nat :=
  { status := 404, headers := [("server", "x")], jsonBody := none,
    textBody := some "Record not found" }

/-- A transport always answering with notFoundResponse. -/
def notFoundTransport : OutboundRequest → TransportResult Nat :=
  fun _ => TransportResult.response notFoundResponse

/-- C2: for every call to APIClient::request whose HTTP round trip returns
status 206, the call fails with the partial-content error kind, never the
generic HTTP-status-error kind, regardless of the response body, and the
error carries the request URL, the numeric status 206, and the response
headers. -/
theorem request_partial_content_error {T : Type} (c : APIClient)
    (parseOk : String → Bool) (transport : OutboundRequest → TransportResult T)
    (path : String) (hd : Option Headers) (m : Method) (p : Option Params)
    (res : HttpResponse T)
    (hparse : parseOk (c.base_url ++ path) = true)
    (htr : transport (c.buildReq (c.base_url ++ path) m hd p) =
      TransportResult.response res)
    (hst : res.status = 206) :
    c.request parseOk transport path hd m p =
      Except.error
        { kind := Kind.HTTPPartialContentError,
          message := "The requested resource is still being processed",
          url := some (c.base_url ++ path), status := some 206,
          headers := some res.headers } := by
  simp only [APIClient.request, hparse, if_true, htr, classifyStatus, hst]
  norm_num [Error.new_own]

/-- Witness for request_partial_content_error at a concrete client, transport
and 206 response. -/
theorem request_partial_content_error_witness :
    sampleClient.request allParse partialTransport "/api/v1/statuses" none
      Method.GET none =
      Except.error
        { kind := Kind.HTTPPartialContentError,
          message := "The requested resource is still being processed",
          url := some ("https://example.test" ++ "/api/v1/statuses"),
          status := some 206, headers := some partialResponse.headers } :=
  request_partial_content_error sampleClient allParse partialTransport
    "/api/v1/statuses" none Method.GET none partialResponse rfl rfl rfl

/-- C1: for every call to APIClient::request whose round trip returns status
200, 201, 202 or 204, the call returns a success whose payload is the
JSON-decoded body and whose headers equal the transport response's
headers; if decoding fails, the call fails with the deserialization error
kind and no other. -/
theorem request_success_decodes {T : Type} (c : APIClient)
    (parseOk : String → Bool) (transport : OutboundRequest → TransportResult T)
    (path : String) (hd : Option Headers) (m : Method) (p : Option Params)
    (res : HttpResponse T)
    (hparse : parseOk (c.base_url ++ path) = true)
    (htr : transport (c.buildReq (c.base_url ++ path) m hd p) =
      TransportResult.response res)
    (hst : res.status = 200 ∨ res.status = 201 ∨ res.status = 202 ∨
      res.status = 204) :
    (∀ v, res.jsonBody = some v →
      c.request parseOk transport path hd m p =
        Except.ok { json := v, headers := res.headers,
                    rateLimit := RateLimit.fromHeaders res.headers })
    ∧ (res.jsonBody = none →
      ∃ e, c.request parseOk transport path hd m p = Except.error e ∧
        e.kind = Kind.DeserializeError) := by
  have hreq : c.request parseOk transport path hd m p =
      Response.from_reqwest res := by
    simp only [APIClient.request, hparse, if_true, htr, classifyStatus,
      if_pos hst]
  constructor
  · intro v hv
    rw [hreq, Response.from_reqwest, hv]
  · intro hv
    refine ⟨{ kind := Kind.DeserializeError,
              message := "error decoding response body", url := none,
              status := none, headers := none }, ?_, rfl⟩
    rw [hreq, Response.from_reqwest, hv]

/-- Witness for request_success_decodes at a concrete client, transport and
200 response decoding to 7. -/
theorem request_success_decodes_witness :
    sampleClient.request allParse okTransport "/api/v1/instance" none
      Method.GET none =
      Except.ok { json := 7, headers := okResponse.headers,
                  rateLimit := RateLimit.fromHeaders okResponse.headers } :=
  (request_success_decodes sampleClient allParse okTransport "/api/v1/instance"
    none Method.GET none okResponse rfl rfl (Or.inl rfl)).1 7 rfl

/-- C3: for every call to APIClient::request whose round trip returns a
status other than 200, 201, 202, 204 and 206, the call fails with the
HTTP-status-error kind carrying the exact numeric status, the request URL,
the response headers, and the body read as text, or the fixed fallback
message when the body cannot be read as text. -/
theorem request_status_error {T : Type} (c : APIClient)
    (parseOk : String → Bool) (transport : OutboundRequest → TransportResult T)
    (path : String) (hd : Option Headers) (m : Method) (p : Option Params)
    (res : HttpResponse T)
    (hparse : parseOk (c.base_url ++ path) = true)
    (htr : transport (c.buildReq (c.base_url ++ path) m hd p) =
      TransportResult.response res)
    (h2xx : ¬(res.status = 200 ∨ res.status = 201 ∨ res.status = 202 ∨
      res.status = 204))
    (h206 : res.status ≠ 206) :
    (∀ text, res.textBody = some text →
      c.request parseOk transport path hd m p =
        Except.error
          { kind := Kind.HTTPStatusError, message := text,
            url := some (c.base_url ++ path), status := some res.status,
            headers := some res.headers })
    ∧ (res.textBody = none →
      c.request parseOk transport path hd m p =
        Except.error
          { kind := Kind.HTTPStatusError, message := "Unknown error",
            url := some (c.base_url ++ path), status := some res.status,
            headers := some res.headers }) := by
  have hreq : c.request parseOk transport path hd m p =
      (match res.textBody with
       | some text =>
         Except.error (Error.new_own text Kind.HTTPStatusError
           (some (c.base_url ++ path)) (some res.status) (some res.headers))
       | none =>
         Except.error (Error.new_own "Unknown error" Kind.HTTPStatusError
           (some (c.base_url ++ path)) (some res.status) (some res.headers))) := by
    simp only [APIClient.request, hparse, if_true, htr, classifyStatus,
      if_neg h2xx, if_neg h206]
  constructor
  · intro text htext
    rw [hreq, htext]
    rfl
  · intro htext
    rw [hreq, htext]
    rfl

/-- Witness for request_status_error at a concrete client, transport and 404
response with body text. -/
theorem request_status_error_witness :
    sampleClient.request allParse notFoundTransport "/api/v1/instance" none
      Method.GET none =
      Except.error
        { kind := Kind.HTTPStatusError, message := "Record not found",
          url := some ("https://example.test" ++ "/api/v1/instance"),
          status := some notFoundResponse.status,
          headers := some notFoundResponse.headers } :=
  (request_status_error sampleClient allParse notFoundTransport
    "/api/v1/instance" none Method.GET none notFoundResponse rfl rfl
    (by decide) (by decide)).1 "Record not found" rfl

/-- C6: every request issued through a client constructed with Some access
token carries an Authorization value of Bearer followed by exactly that
token; a client constructed with None sends no such header. The first
conjunct shows the only request the transport ever receives is the one
built by buildReq. -/
theorem request_bearer_auth_header {T : Type} (c : APIClient)
    (parseOk : String → Bool) (transport : OutboundRequest → TransportResult T)
    (path : String) (hd : Option Headers) (m : Method) (p : Option Params)
    (hparse : parseOk (c.base_url ++ path) = true) :
    (c.request parseOk transport path hd m p =
      (match transport (c.buildReq (c.base_url ++ path) m hd p) with
       | .failure e => Except.error (Error.fromReqwest e)
       | .response res => classifyStatus (c.base_url ++ path) res))
    ∧ (∀ tok, c.access_token = some tok →
        (c.buildReq (c.base_url ++ path) m hd p).authorization =
          some ("Bearer " ++ tok))
    ∧ (c.access_token = none →
        (c.buildReq (c.base_url ++ path) m hd p).authorization = none) := by
  refine ⟨?_, ?_, ?_⟩
  · simp only [APIClient.request, hparse, if_true]
  · intro tok htok
    simp only [APIClient.buildReq, htok]
    rfl
  · intro htok
    simp only [APIClient.buildReq, htok]
    rfl

/-- Witness for request_bearer_auth_header at the concrete client holding
token tok123. -/
theorem request_bearer_auth_header_witness :
    (sampleClient.buildReq ("https://example.test" ++ "/api/v1/instance")
      Method.GET none none).authorization = some ("Bearer " ++ "tok123") :=
  (request_bearer_auth_header sampleClient allParse okTransport
    "/api/v1/instance" none Method.GET none rfl).2.1 "tok123" rfl

/-- C7: each public verb method equals request specialized to its fixed HTTP
method and body shape; JSON and multipart bodies are mutually exclusive on
any single call; and no call consults the transport at more than the one
request it builds. -/
theorem verb_methods_specialize {T : Type} (c : APIClient)
    (parseOk : String → Bool) (transport : OutboundRequest → TransportResult T)
    (path : String) (hd : Option Headers)
    (jsonParams : List (String × Value)) (form : MultipartForm) :
    c.get parseOk transport path hd =
      c.request parseOk transport path hd Method.GET none
    ∧ c.post parseOk transport path jsonParams hd =
      c.request parseOk transport path hd Method.POST
        (some (Params.Json jsonParams))
    ∧ c.post_multipart parseOk transport path form hd =
      c.request parseOk transport path hd Method.POST
        (some (Params.Form form))
    ∧ c.put parseOk transport path jsonParams hd =
      c.request parseOk transport path hd Method.PUT
        (some (Params.Json jsonParams))
    ∧ c.put_multipart parseOk transport path form hd =
      c.request parseOk transport path hd Method.PUT
        (some (Params.Form form))
    ∧ c.patch parseOk transport path jsonParams hd =
      c.request parseOk transport path hd Method.PATCH
        (some (Params.Json jsonParams))
    ∧ c.delete parseOk transport path jsonParams hd =
      c.request parseOk transport path hd Method.DELETE
        (some (Params.Json jsonParams))
    ∧ (∀ body : Params, ¬(body.isJson = true ∧ body.isForm = true))
    ∧ (∀ t₁ t₂ : OutboundRequest → TransportResult T, ∀ m p,
        t₁ (c.buildReq (c.base_url ++ path) m hd p) =
          t₂ (c.buildReq (c.base_url ++ path) m hd p) →
        c.request parseOk t₁ path hd m p = c.request parseOk t₂ path hd m p) := by
  refine ⟨rfl, rfl, rfl, rfl, rfl, rfl, rfl, ?_, ?_⟩
  · intro body hb
    cases body <;> simp [Params.isJson, Params.isForm] at hb
  · intro t₁ t₂ m p hagree
    simp only [APIClient.request, hagree]

/-- Witness for verb_methods_specialize: the GET specialization at concrete
inputs, and the single-round-trip conjunct applied to two transports that
agree on the built request. -/
theorem verb_methods_specialize_witness :
    sampleClient.get allParse okTransport "/api/v1/instance" none =
      sampleClient.request allParse okTransport "/api/v1/instance" none
        Method.GET none :=
  (verb_methods_specialize sampleClient allParse okTransport "/api/v1/instance"
    none [] { parts := [] }).1

/-- C8: the target URL of every call is the concatenation of base_url and
path, and when that string fails to parse as an absolute URL the call
fails with the InvalidURL kind — with the same fixed error for every
transport, so no round trip is performed. -/
theorem request_invalid_url {T : Type} (c : APIClient)
    (parseOk : String → Bool) (path : String) (hd : Option Headers)
    (m : Method) (p : Option Params)
    (hparse : parseOk (c.base_url ++ path) = false) :
    (∀ transport : OutboundRequest → TransportResult T,
      c.request parseOk transport path hd m p =
        Except.error
          { kind := Kind.InvalidURL, message := "error parsing url",
            url := none, status := none, headers := none })
    ∧ (c.buildReq (c.base_url ++ path) m hd p).url = c.base_url ++ path := by
  constructor
  · intro transport
    simp only [APIClient.request, hparse, Bool.false_eq_true, if_false,
      Error.fromParseError]
  · rfl

/-- Witness for request_invalid_url at a URL oracle rejecting everything. -/
theorem request_invalid_url_witness :
    sampleClient.request (fun _ => false) okTransport "/api/v1/instance" none
      Method.GET none =
      Except.error
        { kind := Kind.InvalidURL, message := "error parsing url",
          url := none, status := none, headers := none } :=
  (request_invalid_url sampleClient (fun _ => false) "/api/v1/instance" none
    Method.GET none rfl).1 okTransport

/-- C9: APIClient::new builds the transport with the supplied user agent, or
the fixed default constant when none is given; it returns a client whose
base_url and access_token equal the arguments exactly when the transport
builds, and fails with the construction-error kind exactly when it does
not. The hypothesis records that reqwest builder failures are of the
builder class. -/
theorem apiclient_new_contract (buildErr : String → Option ReqErr)
    (base_url : String) (access_token user_agent : Option String)
    (hbuilder : ∀ ua e, buildErr ua = some e → e.rkind = ReqErrKind.builder) :
    (∀ ua, user_agent = some ua → buildErr ua = none →
      APIClient.new buildErr base_url access_token user_agent =
        Except.ok { access_token := access_token, base_url := base_url,
                    client := { user_agent := ua } })
    ∧ (user_agent = none → buildErr DEFAULT_UA = none →
      APIClient.new buildErr base_url access_token user_agent =
        Except.ok { access_token := access_token, base_url := base_url,
                    client := { user_agent := DEFAULT_UA } })
    ∧ (∀ ua e, user_agent = some ua → buildErr ua = some e →
      APIClient.new buildErr base_url access_token user_agent =
        Except.error { kind := Kind.ClientConstructionError,
                       message := e.message, url := none, status := none,
                       headers := none })
    ∧ (∀ e, user_agent = none → buildErr DEFAULT_UA = some e →
      APIClient.new buildErr base_url access_token user_agent =
        Except.error { kind := Kind.ClientConstructionError,
                       message := e.message, url := none, status := none,
                       headers := none }) := by
  refine ⟨?_, ?_, ?_, ?_⟩
  · intro ua hua hb
    simp only [APIClient.new, hua, hb]
  · intro hua hb
    simp only [APIClient.new, hua, hb]
  · intro ua e hua hb
    have hrk := hbuilder ua e hb
    simp only [APIClient.new, hua, hb, Error.fromReqwest, hrk]
  · intro e hua hb
    have hrk := hbuilder DEFAULT_UA e hb
    simp only [APIClient.new, hua, hb, Error.fromReqwest, hrk]

/-- Witness for apiclient_new_contract: a builder that always succeeds and no
supplied user agent yields the default-agent client. -/
theorem apiclient_new_contract_witness :
    APIClient.new (fun _ => none) "https://example.test" (some "tok123") none =
      Except.ok { access_token := some "tok123",
                  base_url := "https://example.test",
                  client := { user_agent := DEFAULT_UA } } :=
  (apiclient_new_contract (fun _ => none) "https://example.test"
    (some "tok123") none (fun _ _ h => Option.noConfusion h)).2.1 rfl rfl

/-- C4: the detector classifies a decodable probe-A response by the Pleroma
marker (DialectB with it, DialectA without), falls back to the dialect-C
POST probe only when probe A fails at the transport level and classifies
any successful POST as DialectC, returns the second probe's error when
both fail, and never makes more than two round trips. -/
theorem detector_classifies (url : String)
    (serverGet : String → Except ReqErr (Except ReqErr Instance))
    (serverPost : String → Except ReqErr Unit) :
    (∀ inst, serverGet (url ++ "/api/v1/instance") = Except.ok (Except.ok inst) →
      strContains inst.version "Pleroma" = true →
      detector url serverGet serverPost =
        (Except.ok SNS.Pleroma, [Probe.get (url ++ "/api/v1/instance")]))
    ∧ (∀ inst, serverGet (url ++ "/api/v1/instance") = Except.ok (Except.ok inst) →
      strContains inst.version "Pleroma" = false →
      detector url serverGet serverPost =
        (Except.ok SNS.Mastodon, [Probe.get (url ++ "/api/v1/instance")]))
    ∧ (∀ e u, serverGet (url ++ "/api/v1/instance") = Except.error e →
      serverPost (url ++ "/api/meta") = Except.ok u →
      detector url serverGet serverPost =
        (Except.ok SNS.Misskey,
         [Probe.get (url ++ "/api/v1/instance"),
          Probe.post (url ++ "/api/meta")]))
    ∧ (∀ e₁ e₂, serverGet (url ++ "/api/v1/instance") = Except.error e₁ →
      serverPost (url ++ "/api/meta") = Except.error e₂ →
      detector url serverGet serverPost =
        (Except.error (Error.fromReqwest e₂),
         [Probe.get (url ++ "/api/v1/instance"),
          Probe.post (url ++ "/api/meta")]))
    ∧ (detector url serverGet serverPost).2.length ≤ 2 := by
  refine ⟨?_, ?_, ?_, ?_, ?_⟩
  · intro inst hget hc
    simp only [detector, hget]
    rw [if_pos hc]
  · intro inst hget hc
    simp only [detector, hget]
    rw [if_neg (by rw [hc]; simp)]
  · intro e u hget hpost
    simp only [detector, hget, hpost]
  · intro e₁ e₂ hget hpost
    simp only [detector, hget, hpost]
  · simp only [detector]
    cases serverGet (url ++ "/api/v1/instance") with
    | error e =>
      cases serverPost (url ++ "/api/meta") with
      | error e₂ => simp
      | ok u => simp
    | ok obj =>
      cases obj with
      | error e => simp
      | ok inst =>
        dsimp only
        by_cases hc : strContains inst.version "Pleroma" = true
        · rw [if_pos hc]; simp
        · rw [if_neg hc]; simp

/-- Witness for detector_classifies: a server whose instance endpoint decodes
to a Pleroma version string is classified as DialectB in one round trip. -/
theorem detector_classifies_witness :
    detector "https://example.test"
      (fun _ => Except.ok (Except.ok
        { title := "t", uri := "example.test",
          urls := { streaming_api := "wss://example.test" },
          version := "2.7.2 (compatible; Pleroma 1.0)" }))
      (fun _ => Except.ok ()) =
      (Except.ok SNS.Pleroma,
       [Probe.get ("https://example.test" ++ "/api/v1/instance")]) :=
  (detector_classifies "https://example.test"
    (fun _ => Except.ok (Except.ok
      { title := "t", uri := "example.test",
        urls := { streaming_api := "wss://example.test" },
        version := "2.7.2 (compatible; Pleroma 1.0)" }))
    (fun _ => Except.ok ())).1
    { title := "t", uri := "example.test",
      urls := { streaming_api := "wss://example.test" },
      version := "2.7.2 (compatible; Pleroma 1.0)" } rfl (by decide)

/-- C10: the dialect-B classification is a case-sensitive substring test on
the decoded version field: a decodable response yields Pleroma exactly
when the version contains the exact substring Pleroma, a lowercase
spelling yields Mastodon, and a probe-A body that fails to decode makes
the detector return the decode error without ever attempting the
dialect-C probe. -/
theorem detector_marker_case_sensitive (url : String)
    (serverGet : String → Except ReqErr (Except ReqErr Instance))
    (serverPost : String → Except ReqErr Unit) :
    (∀ inst, serverGet (url ++ "/api/v1/instance") = Except.ok (Except.ok inst) →
      (detector url serverGet serverPost).1 =
        (if strContains inst.version "Pleroma" = true then Except.ok SNS.Pleroma
         else Except.ok SNS.Mastodon))
    ∧ (∀ inst, serverGet (url ++ "/api/v1/instance") = Except.ok (Except.ok inst) →
      inst.version = "pleroma 2.7.2" →
      detector url serverGet serverPost =
        (Except.ok SNS.Mastodon, [Probe.get (url ++ "/api/v1/instance")]))
    ∧ (∀ e, serverGet (url ++ "/api/v1/instance") = Except.ok (Except.error e) →
      detector url serverGet serverPost =
        (Except.error (Error.fromReqwest e),
         [Probe.get (url ++ "/api/v1/instance")])) := by
  refine ⟨?_, ?_, ?_⟩
  · intro inst hget
    simp only [detector, hget]
    by_cases hc : strContains inst.version "Pleroma" = true
    · rw [if_pos hc, if_pos hc]
    · rw [if_neg hc, if_neg hc]
  · intro inst hget hv
    simp only [detector, hget]
    rw [if_neg (by rw [hv]; decide)]
  · intro e hget
    simp only [detector, hget]

/-- Witness for detector_marker_case_sensitive: a lowercase pleroma version
string is classified as DialectA, the Mastodon dialect. -/
theorem detector_marker_case_sensitive_witness :
    detector "https://example.test"
      (fun _ => Except.ok (Except.ok
        { title := "t", uri := "example.test",
          urls := { streaming_api := "wss://example.test" },
          version := "pleroma 2.7.2" }))
      (fun _ => Except.ok ()) =
      (Except.ok SNS.Mastodon,
       [Probe.get ("https://example.test" ++ "/api/v1/instance")]) :=
  (detector_marker_case_sensitive "https://example.test"
    (fun _ => Except.ok (Except.ok
      { title := "t", uri := "example.test",
        urls := { streaming_api := "wss://example.test" },
        version := "pleroma 2.7.2" }))
    (fun _ => Except.ok ())).2.1
    { title := "t", uri := "example.test",
      urls := { streaming_api := "wss://example.test" },
      version := "pleroma 2.7.2" } rfl rfl

/-- C5: the factory evaluated at the failing input: its match on the kind has
a single wildcard arm, so it constructs the Mastodon backend for the
Misskey kind — and indeed for every kind — instead of one distinct
implementing type per enumeration value. -/
theorem generator_always_mastodon :
    generator SNS.Misskey "https://example.test" none none =
      MegalodonImpl.mastodon "https://example.test" none none
    ∧ ∀ (sns : SNS) (b : String) (a u : Option String),
        generator sns b a u = MegalodonImpl.mastodon b a u :=
  ⟨rfl, fun sns b a u => by cases sns <;> rfl⟩
